import Mathlib

/-!
Verification development for the nano-creatures SDK client
(`src/index.ts`).  The SDK is a thin HTTP client: every operation builds a
request (method, url, headers, body), issues it, and translates the
response (status plus body text) into either a typed success value or a
thrown `Error`.  We embed, per operation, the pure request-building and
response-handling code, together with the small fragment of JavaScript
semantics the code relies on: `JSON.parse` / `JSON.stringify`, truthiness,
property access (including the `TypeError` on reading from `null` or
`undefined`), `x || dflt` defaulting, and the `try`/`catch` statement.
-/

namespace NanoCreatures

/-- JSON values as produced by `JSON.parse`.  Numeric literals keep their
source text (`num raw`); none of the verified properties inspects a
numeric value beyond truthiness.  Objects are key-value lists; the parser
builds them the way JavaScript does (first occurrence keeps its position,
a duplicate key overwrites the value). -/
inductive Json where
  | null : Json
  | bool (b : Bool) : Json
  | num (raw : String) : Json
  | str (s : String) : Json
  | arr (elems : List Json) : Json
  | obj (fields : List (String × Json)) : Json

/-- Left and right curly-brace characters, used by the JSON reader. -/
def lbrace : Char := Char.ofNat 123

def rbrace : Char := Char.ofNat 125

def isWsChar (c : Char) : Bool :=
  c = ' ' || c = '\n' || c = '\t' || c = '\r'

def skipWs : List Char → List Char
  | [] => []
  | c :: cs => if isWsChar c then skipWs cs else c :: cs

/-- First run of decimal digits, and the rest. -/
def takeDigits : List Char → (List Char × List Char)
  | [] => ([], [])
  | c :: cs =>
    if c.isDigit then
      let (ds, r) := takeDigits cs
      (c :: ds, r)
    else ([], c :: cs)

def hexVal (c : Char) : Option Nat :=
  if c.isDigit then some (c.toNat - 48)
  else if 'a' ≤ c ∧ c ≤ 'f' then some (c.toNat - 87)
  else if 'A' ≤ c ∧ c ≤ 'F' then some (c.toNat - 55)
  else none

def escChar (c : Char) : Option Char :=
  if c = '"' then some '"'
  else if c = '\\' then some '\\'
  else if c = '/' then some '/'
  else if c = 'n' then some '\n'
  else if c = 't' then some '\t'
  else if c = 'r' then some '\r'
  else if c = 'b' then some (Char.ofNat 8)
  else if c = 'f' then some (Char.ofNat 12)
  else none

/-- Body of a JSON string literal after the opening quote: the decoded
string and the input after the closing quote. -/
def parseStrBody : List Char → Option (String × List Char)
  | [] => none
  | '"' :: cs => some ("", cs)
  | '\\' :: 'u' :: h1 :: h2 :: h3 :: h4 :: cs =>
    match hexVal h1, hexVal h2, hexVal h3, hexVal h4 with
    | some a, some b, some c, some d =>
      (parseStrBody cs).map fun p =>
        ((Char.ofNat (a * 4096 + b * 256 + c * 16 + d)).toString ++ p.1, p.2)
    | _, _, _, _ => none
  | '\\' :: e :: cs =>
    match escChar e with
    | some ec => (parseStrBody cs).map fun p => (ec.toString ++ p.1, p.2)
    | none => none
  | c :: cs => (parseStrBody cs).map fun p => (c.toString ++ p.1, p.2)

def parseFracPart : List Char → Option (String × List Char)
  | '.' :: r =>
    let (fd, r2) := takeDigits r
    if fd.isEmpty then none else some ("." ++ String.mk fd, r2)
  | cs => some ("", cs)

def parseExpPart : List Char → Option (String × List Char)
  | [] => some ("", [])
  | c :: r =>
    if c = 'e' || c = 'E' then
      let (sgn, r1) : String × List Char :=
        match r with
        | '+' :: r2 => ("+", r2)
        | '-' :: r2 => ("-", r2)
        | _ => ("", r)
      let (ed, r3) := takeDigits r1
      if ed.isEmpty then none
      else some (c.toString ++ sgn ++ String.mk ed, r3)
    else some ("", c :: r)

/-- JSON number literal, kept as its source text. -/
def parseNum (cs : List Char) : Option (String × List Char) :=
  let (sgn, cs1) : String × List Char :=
    match cs with
    | '-' :: r => ("-", r)
    | _ => ("", cs)
  let (ds, cs2) := takeDigits cs1
  if ds.isEmpty then none
  else
    match parseFracPart cs2 with
    | none => none
    | some (frac, cs3) =>
      match parseExpPart cs3 with
      | none => none
      | some (ex, cs4) => some (sgn ++ String.mk ds ++ frac ++ ex, cs4)

/-- Drop an expected literal from the front of the input. -/
def dropLit : List Char → List Char → Option (List Char)
  | [], cs => some cs
  | l :: ls, c :: cs => if c = l then dropLit ls cs else none
  | _ :: _, [] => none

/-- Javascript object construction: a repeated key overwrites the value in
place, a fresh key is appended. -/
def setKv (kvs : List (String × Json)) (k : String) (v : Json) :
    List (String × Json) :=
  if kvs.any fun kv => kv.1 = k then
    kvs.map fun kv => if kv.1 = k then (k, v) else kv
  else kvs ++ [(k, v)]

mutual

/-- Recursive JSON reader (fuel-indexed to make the nesting recursion
structural).  Mirrors the grammar accepted by `JSON.parse`. -/
def parseVal : Nat → List Char → Option (Json × List Char)
  | 0, _ => none
  | fuel + 1, cs =>
    match skipWs cs with
    | [] => none
    | c :: r =>
      if c = lbrace then
        match skipWs r with
        | [] => none
        | c2 :: r2 =>
          if c2 = rbrace then some (Json.obj [], r2)
          else parseMembers fuel (c2 :: r2) []
      else if c = '[' then
        match skipWs r with
        | [] => none
        | c2 :: r2 =>
          if c2 = ']' then some (Json.arr [], r2)
          else parseElems fuel (c2 :: r2) []
      else if c = '"' then
        (parseStrBody r).map fun p => (Json.str p.1, p.2)
      else if c = 'n' then
        (dropLit ("ull".data) r).map fun r2 => (Json.null, r2)
      else if c = 't' then
        (dropLit ("rue".data) r).map fun r2 => (Json.bool true, r2)
      else if c = 'f' then
        (dropLit ("alse".data) r).map fun r2 => (Json.bool false, r2)
      else
        (parseNum (c :: r)).map fun p => (Json.num p.1, p.2)

/-- Members of a JSON object after the opening brace (non-empty case). -/
def parseMembers : Nat → List Char → List (String × Json) →
    Option (Json × List Char)
  | 0, _, _ => none
  | fuel + 1, cs, acc =>
    match skipWs cs with
    | [] => none
    | c :: r =>
      if c = '"' then
        match parseStrBody r with
        | none => none
        | some (k, r2) =>
          match skipWs r2 with
          | ':' :: r3 =>
            match parseVal fuel r3 with
            | none => none
            | some (v, r4) =>
              match skipWs r4 with
              | [] => none
              | c2 :: r5 =>
                if c2 = ',' then parseMembers fuel r5 (setKv acc k v)
                else if c2 = rbrace then some (Json.obj (setKv acc k v), r5)
                else none
          | _ => none
      else none

/-- Elements of a JSON array after the opening bracket (non-empty case). -/
def parseElems : Nat → List Char → List Json → Option (Json × List Char)
  | 0, _, _ => none
  | fuel + 1, cs, acc =>
    match parseVal fuel cs with
    | none => none
    | some (v, r) =>
      match skipWs r with
      | [] => none
      | c :: r2 =>
        if c = ',' then parseElems fuel r2 (acc ++ [v])
        else if c = ']' then some (Json.arr (acc ++ [v]), r2)
        else none

end

/-- Embeds `JSON.parse`: `some` on valid JSON text, `none` where the real
function throws a `SyntaxError`. -/
def Json.parse (s : String) : Option Json :=
  match parseVal (s.length + 1) s.data with
  | none => none
  | some (j, rest) => if (skipWs rest).isEmpty then some j else none

/-- Message of the `SyntaxError` thrown by `JSON.parse` on invalid input.
The exact wording is engine-specific (V8 prints an "Unexpected token"
diagnostic quoting part of the input); the model keeps the two properties
the proofs rely on: the message is a function of the offending text alone,
and it never mentions any HTTP status. -/
def jsonSyntaxError (text : String) : String :=
  "Unexpected token: " ++ text ++ " is not valid JSON"

def lookupKv : List (String × Json) → String → Option Json
  | [], _ => none
  | kv :: kvs, k => if kv.1 = k then some kv.2 else lookupKv kvs k

/-- Field of a JSON object (`none` both for a missing field and for a
non-object value, where JavaScript property access yields `undefined`). -/
def Json.getField (j : Json) (k : String) : Option Json :=
  match j with
  | .obj kvs => lookupKv kvs k
  | _ => none

/-- Javascript property access `v.key`, where `v` itself may be
`undefined` (`none`): reading a property of `undefined` or `null` throws a
`TypeError`; on any other non-object value it yields `undefined`; on an
object it looks the field up. -/
def jsGet : Option Json → String → Except String (Option Json)
  | none, k =>
    Except.error ("Cannot read properties of undefined (reading '" ++ k ++ "')")
  | some Json.null, k =>
    Except.error ("Cannot read properties of null (reading '" ++ k ++ "')")
  | some (Json.obj kvs), k => Except.ok (lookupKv kvs k)
  | some _, _ => Except.ok none

/-- Zero test on the source text of a JSON numeric literal: true when the
mantissa has no nonzero digit (so `0`, `-0`, `0.00`, `0e5` are all zero). -/
def numLiteralIsZero (raw : String) : Bool :=
  (raw.data.takeWhile fun c => c ≠ 'e' ∧ c ≠ 'E').all fun c => !(c.isDigit ∧ c ≠ '0')

/-- Javascript truthiness of a parsed JSON value. -/
def jsTruthy : Json → Bool
  | .null => false
  | .bool b => b
  | .num raw => !numLiteralIsZero raw
  | .str s => s ≠ ""
  | .arr _ => true
  | .obj _ => true

/-- Javascript `String(v)` for a parsed JSON value, as used by the `Error`
constructor.  The array and object cases are approximations of
`Array.prototype.toString` / `Object.prototype.toString`; no verified
property evaluates them. -/
def jsString : Json → String
  | .null => "null"
  | .bool true => "true"
  | .bool false => "false"
  | .num raw => raw
  | .str s => s
  | .arr _ => ""
  | .obj _ => "[object Object]"

/-- Message of `new Error(x)` where `x` came from a property access:
`new Error(undefined)` leaves the message empty, any other value is
converted to string. -/
def newErrorMsg : Option Json → String
  | none => ""
  | some v => jsString v

/-- Message of `new Error(x || dflt)`: the default is used when `x` is
`undefined` (absent field) or falsy; otherwise `x`, converted to string. -/
def jsOrMsg : Option Json → String → String
  | none, dflt => dflt
  | some v, dflt => if jsTruthy v then jsString v else dflt

/-- Javascript `try { body } catch (e) { handler e }`: the handler runs on
any throw inside the body, including a `throw` statement the body itself
executes. -/
def jsTry {α : Type} (body : Except String α) (handler : String → Except String α) :
    Except String α :=
  match body with
  | Except.ok a => Except.ok a
  | Except.error e => handler e

/-! ## Configuration (`NanoCreaturesSDK.constructor`) -/

def DEFAULT_BASE_URL : String := "https://nanocreatures.app"

/-- Options object accepted by the constructor (`NanoCreaturesSDKConfig`);
`none` is an omitted (undefined) option. -/
structure NanoCreaturesSDKConfig where
  baseUrl : Option String := none
  apiKey : Option String := none

/-- The resolved `Required<NanoCreaturesSDKConfig>` stored on the class. -/
structure ResolvedConfig where
  baseUrl : String
  apiKey : String

/-- Javascript `a || b` where `a` is a possibly-undefined string: the
default is taken when `a` is undefined or falsy (empty). -/
def jsOrStr : Option String → String → String
  | none, dflt => dflt
  | some s, dflt => if s = "" then dflt else s

/-- The constructor body: `baseUrl: config.baseUrl || DEFAULT_BASE_URL`,
`apiKey: config.apiKey || ''`. -/
def mkConfig (config : NanoCreaturesSDKConfig) : ResolvedConfig :=
  { baseUrl := jsOrStr config.baseUrl DEFAULT_BASE_URL
    apiKey := jsOrStr config.apiKey "" }

/-! ## Request building -/

/-- Headers of `signUp`: `Content-Type` always, and the configured API key
as a Bearer header only when it is truthy (non-empty). -/
def signUpHeadersList (cfg : ResolvedConfig) : List (String × String) :=
  [("Content-Type", "application/json")] ++
    (if cfg.apiKey ≠ "" then [("Authorization", "Bearer " ++ cfg.apiKey)] else [])

/-- Headers of `signIn`, built by the same expression as `signUp`. -/
def signInHeadersList (cfg : ResolvedConfig) : List (String × String) :=
  [("Content-Type", "application/json")] ++
    (if cfg.apiKey ≠ "" then [("Authorization", "Bearer " ++ cfg.apiKey)] else [])

/-- Outbound request body: absent, JSON text, or multipart form fields. -/
inductive RequestBody where
  | empty : RequestBody
  | json (text : String) : RequestBody
  | form (fields : List (String × String)) : RequestBody

structure HttpRequest where
  method : String
  url : String
  headers : List (String × String)
  body : RequestBody

/-- The `ChatParams` interface; `none` models an omitted optional field. -/
structure ChatParams where
  message : String
  maxResults : Option Int := none
  sessionId : Option String := none
  templateId : Option String := none

/-- The `ChatParams | string` union accepted by `chat`. -/
inductive ChatArg where
  | str (s : String) : ChatArg
  | params (p : ChatParams) : ChatArg

def escapeStringChars : List Char → String
  | [] => ""
  | c :: cs =>
    (if c = '"' then "\\\""
     else if c = '\\' then "\\\\"
     else if c = '\n' then "\\n"
     else if c = '\t' then "\\t"
     else if c = '\r' then "\\r"
     else c.toString) ++ escapeStringChars cs

/-- JSON string literal for `s` (the escapes `JSON.stringify` emits for
the characters that occur in the verified properties). -/
def quoteStr (s : String) : String :=
  "\"" ++ escapeStringChars s.data ++ "\""

/-- Embeds `JSON.stringify` on a `ChatParams` object: keys in declaration
order, `undefined` (`none`) fields omitted, no whitespace. -/
def ChatParams.stringify (p : ChatParams) : String :=
  "\x7b" ++
    String.intercalate ","
      ([quoteStr "message" ++ ":" ++ quoteStr p.message] ++
        (match p.maxResults with
         | some n => [quoteStr "maxResults" ++ ":" ++ toString n]
         | none => []) ++
        (match p.sessionId with
         | some s => [quoteStr "sessionId" ++ ":" ++ quoteStr s]
         | none => []) ++
        (match p.templateId with
         | some s => [quoteStr "templateId" ++ ":" ++ quoteStr s]
         | none => [])) ++
  "\x7d"

/-- The body text `chat` sends: a bare string is first wrapped as
`{message: params}`, then the result is `JSON.stringify`-ed. -/
def chatRequestBodyText : ChatArg → String
  | ChatArg.str s => ChatParams.stringify { message := s }
  | ChatArg.params p => ChatParams.stringify p

/-- Headers of `chat`.  The source tests `token.startsWith('sk-')` but
assigns the identical `Bearer` header in both branches; the conditional is
kept to mirror the code. -/
def chatHeadersList (token : String) : List (String × String) :=
  if token.startsWith "sk-" then
    [("Content-Type", "application/json"), ("Authorization", "Bearer " ++ token)]
  else
    [("Content-Type", "application/json"), ("Authorization", "Bearer " ++ token)]

/-- The full outbound request of `chat`. -/
def chatRequest (cfg : ResolvedConfig) (token creatureId : String)
    (params : ChatArg) : HttpRequest :=
  { method := "POST"
    url := cfg.baseUrl ++ "/api/creatures/" ++ creatureId ++ "/chat"
    headers := chatHeadersList token
    body := RequestBody.json (chatRequestBodyText params) }

/-! ## createMemorySource form data -/

inductive MemoryType where
  | staticText : MemoryType
  | document : MemoryType
deriving DecidableEq

def MemoryType.toWire : MemoryType → String
  | .staticText => "STATIC_TEXT"
  | .document => "DOCUMENT"

/-- The `CreateMemorySourceParams` interface.  `file` is declared in the
source but never read by `createMemorySource`, so its payload is not
modelled. -/
structure CreateMemorySourceParams where
  name : String
  type : MemoryType
  content : Option String := none
  file : Option Unit := none
  fileUrl : Option String := none
  fileName : Option String := none
  fileSize : Option Int := none

/-- Truthiness of a possibly-undefined string (`undefined` and `''` are
falsy). -/
def jsTruthyStr : Option String → Bool
  | none => false
  | some s => s ≠ ""

/-- Truthiness of a possibly-undefined number (`undefined` and `0` are
falsy). -/
def jsTruthyNum : Option Int → Bool
  | none => false
  | some n => n ≠ 0

/-- The `FormData` built by `createMemorySource`: `name` and `type`
always; then `content` only for a truthy `content` on STATIC_TEXT, or the
truthy ones among `fileUrl`/`fileName`/`fileSize` on DOCUMENT
(`fileSize` via `.toString()`). -/
def memorySourceFormData (params : CreateMemorySourceParams) :
    List (String × String) :=
  let fd := [("name", params.name), ("type", params.type.toWire)]
  if params.type = MemoryType.staticText ∧ jsTruthyStr params.content then
    fd ++ [("content", params.content.getD "")]
  else if params.type = MemoryType.document then
    fd ++
      (if jsTruthyStr params.fileUrl then [("fileUrl", params.fileUrl.getD "")] else []) ++
      (if jsTruthyStr params.fileName then [("fileName", params.fileName.getD "")] else []) ++
      (if jsTruthyNum params.fileSize then
        [("fileSize", toString (params.fileSize.getD 0))] else [])
  else fd

/-- The full outbound request of `createMemorySource`. -/
def createMemorySourceRequest (cfg : ResolvedConfig) (token creatureId : String)
    (params : CreateMemorySourceParams) : HttpRequest :=
  { method := "POST"
    url := cfg.baseUrl ++ "/api/creatures/" ++ creatureId ++ "/memory-sources"
    headers := [("Authorization", "Bearer " ++ token)]
    body := RequestBody.form (memorySourceFormData params) }

/-! ## Response handling

Each operation receives the HTTP status and the response body text and
either returns the parsed success value or throws an `Error` whose message
we compute.  The `catch (error) { if (error instanceof Error) throw error; ... }`
wrapper at the end of every operation rethrows every `Error` unchanged, so
it is the identity on all the paths modelled here. -/

/-- A `fetch` `Response.ok`: status in the 2xx range. -/
def httpOk (status : Nat) : Bool :=
  decide (200 ≤ status ∧ status < 300)

/-- The hardcoded secret `'iloveburritosbaby'` used by `signIn`. -/
def NEXTAUTH_SECRET : String := "iloveburritosbaby"

/-- Value of a possibly-undefined jwt claim, for embedding into the token
text. -/
def claimText : Option Json → String
  | none => "undefined"
  | some v => jsString v

/-- Models `jwt.sign({userId, email}, secret, {expiresIn: '1h'})` from the
`jsonwebtoken` library: a token determined by the claims and the secret.
The real token text differs, but nothing in `signIn` inspects it — the
token is only substituted into the returned object. -/
def jwtSign (userId email : Option Json) (secret : String) : String :=
  "jwt." ++ claimText userId ++ "." ++ claimText email ++ "." ++ secret

/-- Javascript spread `{...data, key: v}`: on an object, the key is
overwritten in place or appended; the verified properties only apply this
to objects. -/
def Json.setField : Json → String → Json → Json
  | Json.obj kvs, k, v => Json.obj (setKv kvs k v)
  | _, k, v => Json.obj [(k, v)]

/-- Response handling of `signUp` (`src/index.ts` lines 105-122).  The
non-2xx branch is a `try`/`catch` whose `try` block itself throws in both
of its cases — either the `SyntaxError` of `JSON.parse` or the explicit
`throw new Error(error.message || 'Failed to sign up')` — so the `catch`
clause always runs and replaces the error with the
`Server returned <status>: <body>` message. -/
def signUpHandle (status : Nat) (bodyText : String) : Except String Json :=
  if httpOk status = false then
    jsTry
      (match Json.parse bodyText with
       | none => Except.error (jsonSyntaxError bodyText)
       | some err =>
         match jsGet (some err) "message" with
         | Except.error te => Except.error te
         | Except.ok m => Except.error (jsOrMsg m "Failed to sign up"))
      (fun _ =>
        Except.error ("Server returned " ++ toString status ++ ": " ++ bodyText))
  else
    match Json.parse bodyText with
    | none => Except.error ("Invalid JSON response: " ++ bodyText)
    | some j => Except.ok j

/-- Response handling of `signIn` (`src/index.ts` lines 147-164): on
non-2xx, `response.json()` then `throw new Error(error.message)` with no
default; on 2xx, a fresh token is signed over `data.user.id` and
`data.user.email` with the hardcoded secret and spread over the response
as `{...data, token}`. -/
def signInHandle (status : Nat) (bodyText : String) : Except String Json :=
  if httpOk status = false then
    match Json.parse bodyText with
    | none => Except.error (jsonSyntaxError bodyText)
    | some err =>
      match jsGet (some err) "message" with
      | Except.error te => Except.error te
      | Except.ok m => Except.error (newErrorMsg m)
  else
    match Json.parse bodyText with
    | none => Except.error (jsonSyntaxError bodyText)
    | some data =>
      match jsGet (some data) "user" with
      | Except.error te => Except.error te
      | Except.ok u =>
        match jsGet u "id", jsGet u "email" with
        | Except.error te, _ => Except.error te
        | _, Except.error te => Except.error te
        | Except.ok uid, Except.ok uem =>
          Except.ok
            (data.setField "token" (Json.str (jwtSign uid uem NEXTAUTH_SECRET)))

/-- Response handling of `getCreatures` (`src/index.ts` lines 188-193):
non-2xx throws `new Error(error.message)` with no default. -/
def getCreaturesHandle (status : Nat) (bodyText : String) : Except String Json :=
  if httpOk status = false then
    match Json.parse bodyText with
    | none => Except.error (jsonSyntaxError bodyText)
    | some err =>
      match jsGet (some err) "message" with
      | Except.error te => Except.error te
      | Except.ok m => Except.error (newErrorMsg m)
  else
    match Json.parse bodyText with
    | none => Except.error (jsonSyntaxError bodyText)
    | some j => Except.ok j

/-- Response handling of `createCreature` (`src/index.ts` lines 219-224):
non-2xx throws `new Error(error.message || 'Failed to create creature')`. -/
def createCreatureHandle (status : Nat) (bodyText : String) :
    Except String Json :=
  if httpOk status = false then
    match Json.parse bodyText with
    | none => Except.error (jsonSyntaxError bodyText)
    | some err =>
      match jsGet (some err) "message" with
      | Except.error te => Except.error te
      | Except.ok m => Except.error (jsOrMsg m "Failed to create creature")
  else
    match Json.parse bodyText with
    | none => Except.error (jsonSyntaxError bodyText)
    | some j => Except.ok j

/-- Response handling of `editCreature` (`src/index.ts` lines 251-256):
non-2xx throws `new Error(error.message || 'Failed to update creature')`. -/
def editCreatureHandle (status : Nat) (bodyText : String) :
    Except String Json :=
  if httpOk status = false then
    match Json.parse bodyText with
    | none => Except.error (jsonSyntaxError bodyText)
    | some err =>
      match jsGet (some err) "message" with
      | Except.error te => Except.error te
      | Except.ok m => Except.error (jsOrMsg m "Failed to update creature")
  else
    match Json.parse bodyText with
    | none => Except.error (jsonSyntaxError bodyText)
    | some j => Except.ok j

/-- Response handling of `deleteCreature` (`src/index.ts` lines 280-283):
non-2xx throws `new Error(error.message || 'Failed to delete creature')`;
on success the body is not read and the operation resolves with no value. -/
def deleteCreatureHandle (status : Nat) (bodyText : String) :
    Except String Unit :=
  if httpOk status = false then
    match Json.parse bodyText with
    | none => Except.error (jsonSyntaxError bodyText)
    | some err =>
      match jsGet (some err) "message" with
      | Except.error te => Except.error te
      | Except.ok m => Except.error (jsOrMsg m "Failed to delete creature")
  else Except.ok ()

/-- Response handling of `createMemorySource` (`src/index.ts` lines
334-339): non-2xx throws `new Error(error.message)` with no default. -/
def createMemorySourceHandle (status : Nat) (bodyText : String) :
    Except String Json :=
  if httpOk status = false then
    match Json.parse bodyText with
    | none => Except.error (jsonSyntaxError bodyText)
    | some err =>
      match jsGet (some err) "message" with
      | Except.error te => Except.error te
      | Except.ok m => Except.error (newErrorMsg m)
  else
    match Json.parse bodyText with
    | none => Except.error (jsonSyntaxError bodyText)
    | some j => Except.ok j

/-- Response handling of `chat` (`src/index.ts` lines 381-386): non-2xx
throws `new Error(error.message)` with no default. -/
def chatHandle (status : Nat) (bodyText : String) : Except String Json :=
  if httpOk status = false then
    match Json.parse bodyText with
    | none => Except.error (jsonSyntaxError bodyText)
    | some err =>
      match jsGet (some err) "message" with
      | Except.error te => Except.error te
      | Except.ok m => Except.error (newErrorMsg m)
  else
    match Json.parse bodyText with
    | none => Except.error (jsonSyntaxError bodyText)
    | some j => Except.ok j

/-- Response body used to probe `signIn`: a 2xx body that does carry a
server-issued token. -/
def srvTokenBody : String :=
  "\x7b\"token\":\"srv\",\"user\":\x7b\"id\":\"u1\",\"email\":\"a@b\"\x7d\x7d"

/-! ## Helper lemmas -/

theorem lookupKv_append (kvs : List (String × Json)) (k : String) (v : Json)
    (h : (kvs.any fun kv => kv.1 = k) = false) :
    lookupKv (kvs ++ [(k, v)]) k = some v := by
  induction kvs with
  | nil => simp [lookupKv]
  | cons kv kvs ih =>
    simp only [List.any_cons, Bool.or_eq_false_iff, decide_eq_false_iff_not] at h
    simp [lookupKv, h.1, ih (by simpa using h.2)]

theorem lookupKv_map_set (kvs : List (String × Json)) (k : String) (v : Json)
    (h : (kvs.any fun kv => kv.1 = k) = true) :
    lookupKv (kvs.map fun kv => if kv.1 = k then (k, v) else kv) k = some v := by
  induction kvs with
  | nil => simp at h
  | cons kv kvs ih =>
    by_cases hk : kv.1 = k
    · simp [lookupKv, hk]
    · have h2 : (kvs.any fun kv => kv.1 = k) = true := by
        simp only [List.any_cons, Bool.or_eq_true_iff, decide_eq_true_eq] at h
        rcases h with h | h
        · exact absurd h hk
        · simpa using h
      simp [lookupKv, hk, ih h2]

theorem lookupKv_setKv (kvs : List (String × Json)) (k : String) (v : Json) :
    lookupKv (setKv kvs k v) k = some v := by
  unfold setKv
  split
  next h => exact lookupKv_map_set kvs k v h
  next h => exact lookupKv_append kvs k v (by rwa [Bool.not_eq_true] at h)

theorem getField_setField (j : Json) (k : String) (v : Json) :
    (j.setField k v).getField k = some v := by
  cases j <;> simp [Json.setField, Json.getField, lookupKv_setKv, lookupKv]

/-! ## Claims -/

/-- C1: the claim says every operation surfaces the server's `message`
verbatim on a non-2xx JSON body.  The code contradicts the evident intent
of its own `throw new Error(error.message || 'Failed to sign up')` line:
in `signUp` that throw happens inside a `try` block whose `catch` clause
intercepts it, so the operation instead fails with
`Server returned <status>: <body>`.  The other operations (here
`getCreatures`) do surface `"X"` exactly. -/
theorem signUp_error_message_swallowed :
    signUpHandle 400 "\x7b\"message\":\"X\"\x7d" =
      Except.error ("Server returned 400: \x7b\"message\":\"X\"\x7d") ∧
    getCreaturesHandle 400 "\x7b\"message\":\"X\"\x7d" = Except.error "X" :=
  ⟨rfl, rfl⟩

/-- C2 (counterexample): `chat` on a non-2xx response with the non-JSON
body `"oops"` fails with the `SyntaxError` of `response.json()`, a message
that is a function of the body alone — statuses 500 and 404 produce the
same message, and the digits `500` do not occur in it — so it does not
include the raw status code as claimed. -/
theorem chat_nonjson_error_lacks_status :
    chatHandle 500 "oops" = Except.error (jsonSyntaxError "oops") ∧
    chatHandle 500 "oops" = chatHandle 404 "oops" ∧
    ¬ List.IsInfix ("500".data) ((jsonSyntaxError "oops").data) :=
  ⟨rfl, rfl, by decide⟩

/-- C2 (amended): on a non-2xx response whose body is not valid JSON,
`signUp` fails with `Server returned <status>: <body>` — the raw status
code and raw body text — while every other operation parses the body via
`response.json()` and surfaces its `SyntaxError`, whose message is
determined by the body text alone and carries no status code. -/
theorem nonjson_body_error_messages (status : Nat) (bodyText : String)
    (hok : httpOk status = false) (hp : Json.parse bodyText = none) :
    signUpHandle status bodyText =
      Except.error ("Server returned " ++ toString status ++ ": " ++ bodyText) ∧
    signInHandle status bodyText = Except.error (jsonSyntaxError bodyText) ∧
    getCreaturesHandle status bodyText = Except.error (jsonSyntaxError bodyText) ∧
    createCreatureHandle status bodyText = Except.error (jsonSyntaxError bodyText) ∧
    editCreatureHandle status bodyText = Except.error (jsonSyntaxError bodyText) ∧
    deleteCreatureHandle status bodyText = Except.error (jsonSyntaxError bodyText) ∧
    createMemorySourceHandle status bodyText = Except.error (jsonSyntaxError bodyText) ∧
    chatHandle status bodyText = Except.error (jsonSyntaxError bodyText) := by
  simp [signUpHandle, signInHandle, getCreaturesHandle, createCreatureHandle,
    editCreatureHandle, deleteCreatureHandle, createMemorySourceHandle,
    chatHandle, hok, hp, jsTry]

/-- C2 (witness): the amended theorem applied at status 500 and body
`"oops"`. -/
theorem nonjson_body_error_messages_witness :
    httpOk 500 = false ∧ Json.parse "oops" = none ∧
    signUpHandle 500 "oops" = Except.error ("Server returned 500: oops") ∧
    chatHandle 500 "oops" = Except.error (jsonSyntaxError "oops") := by
  refine ⟨rfl, rfl, ?_, ?_⟩
  · exact (nonjson_body_error_messages 500 "oops" rfl rfl).1
  · exact (nonjson_body_error_messages 500 "oops" rfl rfl).2.2.2.2.2.2.2

/-- C3 (counterexample): `signIn` on a 2xx body that carries the
server-issued token `"srv"` returns the client-minted token (signed over
the user id and email with the hardcoded secret), not `"srv"` — the
minting is unconditional, not a fallback for a missing token. -/
theorem signIn_discards_server_token :
    signInHandle 200 srvTokenBody =
      Except.ok (Json.obj
        [("token", Json.str "jwt.u1.a@b.iloveburritosbaby"),
         ("user", Json.obj [("id", Json.str "u1"), ("email", Json.str "a@b")])]) ∧
    ("jwt.u1.a@b.iloveburritosbaby" : String) ≠ "srv" :=
  ⟨rfl, by decide⟩

/-- C3 (amended): on every 2xx JSON response, `signIn` returns an object
whose `token` field is the client-minted token signed over `data.user.id`
and `data.user.email` with the hardcoded secret, regardless of any token
the server's response contains. -/
theorem signIn_token_always_minted (status : Nat) (bodyText : String)
    (data : Json) (u uid uem : Option Json) (hok : httpOk status = true)
    (hp : Json.parse bodyText = some data)
    (hu : jsGet (some data) "user" = Except.ok u)
    (hid : jsGet u "id" = Except.ok uid)
    (hem : jsGet u "email" = Except.ok uem) :
    ∃ res, signInHandle status bodyText = Except.ok res ∧
      res.getField "token" =
        some (Json.str (jwtSign uid uem NEXTAUTH_SECRET)) := by
  refine ⟨data.setField "token" (Json.str (jwtSign uid uem NEXTAUTH_SECRET)),
    ?_, getField_setField data _ _⟩
  simp [signInHandle, hok, hp, hu, hid, hem]

/-- C3 (witness): the amended theorem applied at status 200 and the body
carrying server token `"srv"`. -/
theorem signIn_token_always_minted_witness :
    httpOk 200 = true ∧
    Json.parse srvTokenBody =
      some (Json.obj [("token", Json.str "srv"),
        ("user", Json.obj [("id", Json.str "u1"), ("email", Json.str "a@b")])]) ∧
    ∃ res, signInHandle 200 srvTokenBody = Except.ok res ∧
      res.getField "token" =
        some (Json.str (jwtSign (some (Json.str "u1")) (some (Json.str "a@b"))
          NEXTAUTH_SECRET)) := by
  refine ⟨rfl, rfl, ?_⟩
  exact signIn_token_always_minted 200 srvTokenBody
    (Json.obj [("token", Json.str "srv"),
      ("user", Json.obj [("id", Json.str "u1"), ("email", Json.str "a@b")])])
    (some (Json.obj [("id", Json.str "u1"), ("email", Json.str "a@b")]))
    (some (Json.str "u1")) (some (Json.str "a@b")) rfl rfl rfl rfl rfl

/-- C4 (counterexample): on a non-2xx response whose body is the JSON
object with no `message` field, `getCreatures`, `chat` and
`createMemorySource` fail with an empty message
(`new Error(error.message)` with `error.message` undefined), not with any
hardcoded per-operation default — no default exists for these operations. -/
theorem getCreatures_missing_message_empty :
    getCreaturesHandle 500 "\x7b\x7d" = Except.error "" ∧
    chatHandle 500 "\x7b\x7d" = Except.error "" ∧
    createMemorySourceHandle 500 "\x7b\x7d" = Except.error "" :=
  ⟨rfl, rfl, rfl⟩

/-- C4 (amended): on a non-2xx JSON-object body lacking `message`, only
`createCreature`, `editCreature` and `deleteCreature` fall back to their
hardcoded defaults; `getCreatures`, `signIn`, `createMemorySource` and
`chat` fail with an empty message, and `signUp` fails with
`Server returned <status>: <body>` (its default is intercepted by its own
catch clause). -/
theorem missing_message_field_defaults (status : Nat) (bodyText : String)
    (kvs : List (String × Json)) (hok : httpOk status = false)
    (hp : Json.parse bodyText = some (Json.obj kvs))
    (hm : lookupKv kvs "message" = none) :
    createCreatureHandle status bodyText = Except.error "Failed to create creature" ∧
    editCreatureHandle status bodyText = Except.error "Failed to update creature" ∧
    deleteCreatureHandle status bodyText = Except.error "Failed to delete creature" ∧
    getCreaturesHandle status bodyText = Except.error "" ∧
    signInHandle status bodyText = Except.error "" ∧
    createMemorySourceHandle status bodyText = Except.error "" ∧
    chatHandle status bodyText = Except.error "" ∧
    signUpHandle status bodyText =
      Except.error ("Server returned " ++ toString status ++ ": " ++ bodyText) := by
  simp [createCreatureHandle, editCreatureHandle, deleteCreatureHandle,
    getCreaturesHandle, signInHandle, createMemorySourceHandle, chatHandle,
    signUpHandle, hok, hp, hm, jsGet, newErrorMsg, jsOrMsg, jsTry]

/-- C4 (witness): the amended theorem applied at status 500 and the empty
JSON object body. -/
theorem missing_message_field_defaults_witness :
    httpOk 500 = false ∧ Json.parse "\x7b\x7d" = some (Json.obj []) ∧
    lookupKv [] "message" = none ∧
    createCreatureHandle 500 "\x7b\x7d" = Except.error "Failed to create creature" := by
  refine ⟨rfl, rfl, rfl, ?_⟩
  exact (missing_message_field_defaults 500 "\x7b\x7d" [] rfl rfl rfl).1

/-- C5: for every configuration, token and creature id, calling `chat`
with the bare string `"hello"` and with the object `{message: "hello"}`
produce byte-identical outbound request bodies, namely the JSON text
`{"message":"hello"}`. -/
theorem chat_string_object_same_body (cfg : ResolvedConfig)
    (token creatureId : String) :
    (chatRequest cfg token creatureId (ChatArg.str "hello")).body =
      (chatRequest cfg token creatureId
        (ChatArg.params { message := "hello" })).body ∧
    (chatRequest cfg token creatureId (ChatArg.str "hello")).body =
      RequestBody.json "\x7b\"message\":\"hello\"\x7d" :=
  ⟨rfl, rfl⟩

/-- C6: a STATIC_TEXT memory source with non-empty `content` and no file
fields sends exactly the form fields `name`, `type`, `content`; a
DOCUMENT memory source with truthy `fileUrl`, `fileName` and `fileSize`
sends exactly `name`, `type`, `fileUrl`, `fileName`, `fileSize`. -/
theorem memorySource_request_fields (n c u fn : String) (sz : Int) :
    (c ≠ "" →
      memorySourceFormData
        { name := n, type := MemoryType.staticText, content := some c } =
        [("name", n), ("type", "STATIC_TEXT"), ("content", c)]) ∧
    (u ≠ "" → fn ≠ "" → sz ≠ 0 →
      memorySourceFormData
        { name := n, type := MemoryType.document, fileUrl := some u,
          fileName := some fn, fileSize := some sz } =
        [("name", n), ("type", "DOCUMENT"), ("fileUrl", u), ("fileName", fn),
         ("fileSize", toString sz)]) := by
  constructor
  · intro hc
    simp [memorySourceFormData, jsTruthyStr, MemoryType.toWire, hc]
  · intro hu hfn hsz
    simp [memorySourceFormData, jsTruthyStr, jsTruthyNum, MemoryType.toWire,
      hu, hfn, hsz]

/-- C6 (witness): the theorem applied at concrete STATIC_TEXT and
DOCUMENT parameters. -/
theorem memorySource_request_fields_witness :
    memorySourceFormData
      { name := "n", type := MemoryType.staticText, content := some "hello" } =
      [("name", "n"), ("type", "STATIC_TEXT"), ("content", "hello")] ∧
    memorySourceFormData
      { name := "n", type := MemoryType.document, fileUrl := some "https://u",
        fileName := some "f.pdf", fileSize := some 12 } =
      [("name", "n"), ("type", "DOCUMENT"), ("fileUrl", "https://u"),
       ("fileName", "f.pdf"), ("fileSize", "12")] :=
  ⟨(memorySource_request_fields "n" "hello" "x" "x" 1).1 (by decide),
   (memorySource_request_fields "n" "x" "https://u" "f.pdf" 12).2
     (by decide) (by decide) (by decide)⟩

/-- C7: for every input, the memory-source form data never carries both a
`content` field and any of the file fields — the two groups are selected
exclusively by `params.type`. -/
theorem memorySource_content_file_exclusive (params : CreateMemorySourceParams) :
    ((((memorySourceFormData params).map Prod.fst).contains "content") &&
      ((((memorySourceFormData params).map Prod.fst).contains "fileUrl") ||
       (((memorySourceFormData params).map Prod.fst).contains "fileName") ||
       (((memorySourceFormData params).map Prod.fst).contains "fileSize"))) = false := by
  rcases params with ⟨n, t, c, f, u, fn, sz⟩
  cases t <;> simp only [memorySourceFormData] <;> split_ifs <;> simp

/-- C8: a supplied-but-falsy optional field is dropped from the form
data: a STATIC_TEXT request with `content` the empty string carries no
`content` field (only `name` and `type`), and a DOCUMENT request with
`fileSize` zero carries no `fileSize` field. -/
theorem memorySource_falsy_fields_dropped (n : String)
    (c u fn : Option String) (sz : Option Int) :
    memorySourceFormData
      { name := n, type := MemoryType.staticText, content := some "",
        fileUrl := u, fileName := fn, fileSize := sz } =
      [("name", n), ("type", "STATIC_TEXT")] ∧
    (((memorySourceFormData
      { name := n, type := MemoryType.document, content := c,
        fileUrl := u, fileName := fn, fileSize := some 0 }).map
        Prod.fst).contains "fileSize") = false := by
  constructor
  · simp [memorySourceFormData, jsTruthyStr, MemoryType.toWire]
  · simp only [memorySourceFormData]
    split_ifs <;> simp_all [jsTruthyNum]

/-- C9: for every configuration, creature id and argument, the chat
request's headers carry `Authorization: Bearer <token>` verbatim, whether
or not the token starts with `sk-`: the prefix check selects between two
identical branches and has no effect on the request. -/
theorem chat_authorization_header_verbatim (cfg : ResolvedConfig)
    (token creatureId : String) (params : ChatArg) :
    (chatRequest cfg token creatureId params).headers =
      [("Content-Type", "application/json"),
       ("Authorization", "Bearer " ++ token)] := by
  show chatHeadersList token = _
  unfold chatHeadersList
  split <;> rfl

/-- C10: the constructor treats falsy configured values as unset — an
empty or omitted `baseUrl` resolves to the production default, an omitted
`apiKey` is stored as the empty string, and with an empty stored `apiKey`
neither `signUp` nor `signIn` sends an Authorization header. -/
theorem constructor_falsy_defaults :
    (mkConfig { baseUrl := some "", apiKey := none }).baseUrl = DEFAULT_BASE_URL ∧
    (mkConfig {}).baseUrl = DEFAULT_BASE_URL ∧
    (mkConfig {}).apiKey = "" ∧
    signUpHeadersList (mkConfig {}) = [("Content-Type", "application/json")] ∧
    signInHeadersList (mkConfig { baseUrl := some "" }) =
      [("Content-Type", "application/json")] := by
  refine ⟨rfl, rfl, rfl, ?_, ?_⟩ <;>
    simp [signUpHeadersList, signInHeadersList, mkConfig, jsOrStr]

end NanoCreatures
